import Mathlib

/-!
Shallow embedding of the PhysicsHub physics toolkit.

Sources embedded:
  * `app/(core)/constants/Utils.js` (unit conversions, `integrate`,
    `collideBoundary`);
  * `app/(core)/physics/PhysicsBody.js` (`PhysicsBody`: `step`, `stepVerlet`,
    `applyForce`, `applyImpulse`, `constrainToBounds`, `updateTrail`,
    `checkHover`, `toScreenPosition`);
  * `app/(core)/physics/ForceCalculator.js` (`gravity`, `spring`);
  * `app/(core)/physics/DragController.js` (`handlePress`, `startDrag`,
    `isDragging`, `getDraggedBody`);
  * the per-frame circle-circle collision resolution of the test sketch
    (`p.draw` in `test.jsx`).

Modelling conventions:
  * JavaScript numbers are modelled by exact rationals `ℚ`.
  * p5 `Vector` values are modelled by the two-component record `Vec`;
    JavaScript in-place mutation becomes explicit state passing.
  * The constant `SCALE` (imported from `Config.js`, its numeric value not in
    scope here) and the mutable `CANVAS_HEIGHT` are passed as parameters to
    every function that reads them.
  * `Math.sqrt` appears in the source only inside `collideBoundary`'s bounce
    branch and in vector normalisation; `collideBoundary` takes the square
    root function as an explicit parameter (the properties proved below do
    not depend on its values), and the collision normal of the test sketch
    is likewise a parameter.
  * A strict comparison of a magnitude `v.mag() > c` with `c ≥ 0` is embedded
    as the equivalent exact comparison of squares `magSq v > c^2`.
-/

/-- Two-component vector (p5.Vector restricted to the plane, as used by the
physics code), over exact rationals. -/
structure Vec where
  x : ℚ
  y : ℚ
deriving DecidableEq, Repr

namespace Vec

/-- `v1.add(v2)` (value form of the in-place p5 operation). -/
def add (v w : Vec) : Vec := ⟨v.x + w.x, v.y + w.y⟩

/-- `Vector.sub(v1, v2)`. -/
def sub (v w : Vec) : Vec := ⟨v.x - w.x, v.y - w.y⟩

/-- `Vector.mult(v, s)` — scalar multiplication. -/
def mult (v : Vec) (s : ℚ) : Vec := ⟨v.x * s, v.y * s⟩

/-- `v.div(s)` — scalar division. -/
def div (v : Vec) (s : ℚ) : Vec := ⟨v.x / s, v.y / s⟩

/-- `v1.dot(v2)`. -/
def dot (v w : Vec) : ℚ := v.x * w.x + v.y * w.y

/-- `v.magSq()` — squared magnitude. -/
def magSq (v : Vec) : ℚ := v.x * v.x + v.y * v.y

/-- Squared distance between two points (`Vector.dist` squared, `p.dist`
squared: the source compares distances against nonnegative thresholds, which
is equivalent to comparing the squares). -/
def distSq (v w : Vec) : ℚ := magSq (sub v w)

/-- The zero vector (`createVector(0, 0)`, `set(0, 0)`). -/
def zero : Vec := ⟨0, 0⟩

end Vec

/-! ## `app/(core)/constants/Utils.js` -/

/-- `toPixels(meters) = meters * SCALE`. -/
def toPixels (SCALE meters : ℚ) : ℚ := meters * SCALE

/-- `toMeters(pixels) = pixels / SCALE`. -/
def toMeters (SCALE pixels : ℚ) : ℚ := pixels / SCALE

/-- `physicsYToScreenY(physicsY) = CANVAS_HEIGHT - physicsY * SCALE`. -/
def physicsYToScreenY (SCALE CANVAS_HEIGHT physicsY : ℚ) : ℚ :=
  CANVAS_HEIGHT - physicsY * SCALE

/-- `screenYToPhysicsY(screenY) = (CANVAS_HEIGHT - screenY) / SCALE`. -/
def screenYToPhysicsY (SCALE CANVAS_HEIGHT screenY : ℚ) : ℚ :=
  (CANVAS_HEIGHT - screenY) / SCALE

/-- `physicsToScreen(physicsPos, p)`. -/
def physicsToScreen (SCALE CANVAS_HEIGHT : ℚ) (physicsPos : Vec) : Vec :=
  ⟨toPixels SCALE physicsPos.x, physicsYToScreenY SCALE CANVAS_HEIGHT physicsPos.y⟩

/-- `screenToPhysics(screenPos, p)`. -/
def screenToPhysics (SCALE CANVAS_HEIGHT : ℚ) (screenPos : Vec) : Vec :=
  ⟨toMeters SCALE screenPos.x, screenYToPhysicsY SCALE CANVAS_HEIGHT screenPos.y⟩

/-- `integrate(pos, vel, acc, dt)` — the velocity-Verlet helper of `Utils.js`.
The source copies its inputs and mutates only the copies, so the embedding is
a pure function returning the pair `(newPos, newVel)`. -/
def integrate (pos vel acc : Vec) (dt : ℚ) : Vec × Vec :=
  let velDt := Vec.mult vel dt
  let accDt2 := Vec.mult acc (1/2 * dt * dt)
  let newPos := Vec.add (Vec.add pos velDt) accDt2
  let accDt := Vec.mult acc dt
  let newVel := Vec.add vel accDt
  (newPos, newVel)

/-- The gravity magnitude read by `collideBoundary` from its optional `acc`
argument: `gravity = acc ? Math.abs(acc.y) : 0`. -/
def gravityOf (acc : Option Vec) : ℚ :=
  match acc with
  | some a => |a.y|
  | none => 0

/-- `collideBoundary(pos, vel, bounds, radius, restitution, acc)` of
`Utils.js` (continued): `boundsW, boundsH` are `bounds.w, bounds.h`; `sqrtFn`
stands for `Math.sqrt`, used only in the energy-conserving bounce branch.
Returns `(newPos, newVel)`. -/
def collideBoundary (sqrtFn : ℚ → ℚ) (pos vel : Vec) (boundsW boundsH radius restitution : ℚ)
    (acc : Option Vec) : Vec × Vec :=
  let gravity : ℚ := gravityOf acc
  let ballLeftEdge := pos.x - radius
  let ballRightEdge := pos.x + radius
  let hitLeftWall := ballLeftEdge < 0
  let hitRightWall := ballRightEdge > boundsW
  let px : ℚ × ℚ :=
    if hitLeftWall then
      let collisionPenetration := 0 - ballLeftEdge
      (radius + collisionPenetration, |vel.x| * restitution)
    else if hitRightWall then
      let collisionPenetration := ballRightEdge - boundsW
      (boundsW - radius - collisionPenetration, -|vel.x| * restitution)
    else (pos.x, vel.x)
  let ballTopEdge := pos.y + radius
  let ballBottomEdge := pos.y - radius
  let hitCeiling := ballTopEdge > boundsH
  let hitFloor := ballBottomEdge < 0
  let py : ℚ × ℚ :=
    if hitCeiling then
      let collisionPenetration := ballTopEdge - boundsH
      (boundsH - radius - collisionPenetration, -|vel.y| * restitution)
    else if hitFloor then
      let collisionPenetration := 0 - ballBottomEdge
      let velSquared := vel.y ^ 2
      let liftDistance := 2 * collisionPenetration
      let work := if gravity > 0 then 2 * gravity * liftDistance else 0
      if velSquared > work then
        let vNew := sqrtFn (velSquared - work)
        (radius + collisionPenetration, vNew * restitution)
      else
        (radius, 0)
    else (pos.y, vel.y)
  (⟨px.1, py.1⟩, ⟨px.2, py.2⟩)

/-! ## `app/(core)/physics/ForceCalculator.js` -/

namespace ForceCalculator

/-- `ForceCalculator.gravity(mass, g)` with `direction = null` (the default):
returns `{ x: 0, y: -(mass * g) }`. The custom-direction branch (used for
inclined planes) normalises the given vector with `Math.sqrt` and is not
exercised by the claims, so only the default branch is embedded. -/
def gravity (mass g : ℚ) : Vec := ⟨0, -(mass * g)⟩

/-- `ForceCalculator.spring(displacement, springConstant)` — Hooke's law. -/
def spring (displacement springConstant : ℚ) : ℚ :=
  -springConstant * displacement

end ForceCalculator

/-! ## `app/(core)/physics/PhysicsBody.js` -/

/-- Body shape (`params.shape`): the source distinguishes `"circle"` from
every other value (rectangle/square). -/
inductive Shape where
  | circle
  | rect
deriving DecidableEq, Repr

/-- `this.state` of `PhysicsBody` — all in physics coordinates, Y-up. -/
structure BodyState where
  position : Vec
  velocity : Vec
  acceleration : Vec
  rotation : ℚ
  angularVelocity : ℚ
  angularAcceleration : ℚ
deriving DecidableEq, Repr

/-- `this.trail` of `PhysicsBody` (`color`/`alpha` are rendering-only and
omitted). `points` grows at the back (`push`) and shrinks at the front
(`shift`). -/
structure Trail where
  enabled : Bool
  points : List Vec
  maxLength : ℕ
deriving DecidableEq, Repr

/-- `PhysicsBody`: the physical parameters (`this.params`, rendering-only
fields omitted), the state, the `isMoving` flag and the trail. The cached
`this.bounds` record is recomputed from position and size on every step, so
it is kept as the derived function `computeBounds` rather than a field. -/
structure PhysicsBody where
  mass : ℚ
  size : ℚ
  restitution : ℚ
  shape : Shape
  state : BodyState
  isMoving : Bool
  trail : Trail
deriving DecidableEq, Repr

namespace PhysicsBody

/-- `applyForce(force)`: `acceleration += force / mass`. -/
def applyForce (force : Vec) (b : PhysicsBody) : PhysicsBody :=
  { b with state := { b.state with
      acceleration := Vec.add b.state.acceleration (Vec.div force b.mass) } }

/-- `applyImpulse(impulse)`: `velocity += impulse / mass`. -/
def applyImpulse (impulse : Vec) (b : PhysicsBody) : PhysicsBody :=
  { b with state := { b.state with
      velocity := Vec.add b.state.velocity (Vec.div impulse b.mass) } }

/-- `updateTrail()`: push the current position, then drop the oldest point
when the length exceeds `maxLength`. -/
def updateTrail (b : PhysicsBody) : Trail :=
  let points := b.trail.points ++ [b.state.position]
  if points.length > b.trail.maxLength then
    { b.trail with points := points.tail }
  else
    { b.trail with points := points }

/-- `velocity.mag() > 0.001` of the source, embedded as the equivalent
comparison of squares (both sides are nonnegative). -/
def isMovingCheck (velocity : Vec) : Bool :=
  decide ((1/1000 : ℚ) ^ 2 < Vec.magSq velocity)

/-- `step(dt)` — the per-frame Euler update. The source mutates `velocity`
first and then adds the *updated* velocity to `position`; afterwards it
advances the angular state, resets both accelerations, refreshes `isMoving`
(and the cached bounds), and appends to the trail when enabled. -/
def step (dt : ℚ) (b : PhysicsBody) : PhysicsBody :=
  if dt ≤ 0 then b
  else
    let velocity := Vec.add b.state.velocity (Vec.mult b.state.acceleration dt)
    let position := Vec.add b.state.position (Vec.mult velocity dt)
    let angularVelocity := b.state.angularVelocity + b.state.angularAcceleration * dt
    let rotation := b.state.rotation + angularVelocity * dt
    let b1 : PhysicsBody :=
      { b with
        state :=
          { position := position
            velocity := velocity
            acceleration := Vec.zero
            rotation := rotation
            angularVelocity := angularVelocity
            angularAcceleration := 0 }
        isMoving := isMovingCheck velocity }
    if b1.trail.enabled then { b1 with trail := b1.updateTrail } else b1

/-- `stepVerlet(dt, previousPosition)` — position-Verlet update. Returns the
updated body together with the returned `currentPos` (`none` on the early
`dt <= 0` exit, where the JS function returns `undefined`). -/
def stepVerlet (dt : ℚ) (previousPosition : Option Vec) (b : PhysicsBody) :
    PhysicsBody × Option Vec :=
  if dt ≤ 0 then (b, none)
  else
    let currentPos := b.state.position
    let prevPos := previousPosition.getD b.state.position
    let displacement := Vec.sub currentPos prevPos
    let accelerationTerm := Vec.mult b.state.acceleration (dt * dt)
    let position := Vec.add (Vec.add b.state.position displacement) accelerationTerm
    let velocity := Vec.div (Vec.sub position currentPos) dt
    let b1 : PhysicsBody :=
      { b with
        state :=
          { b.state with
            position := position
            velocity := velocity
            acceleration := Vec.zero }
        isMoving := isMovingCheck velocity }
    let b2 := if b1.trail.enabled then { b1 with trail := b1.updateTrail } else b1
    (b2, some currentPos)

/-- `constrainToBounds(minX, maxX, minY, maxY)`: clamp each coordinate into
the given interval, multiplying the corresponding velocity component by
`-restitution` on a clamp; returns the updated body and the `collided`
flag. -/
def constrainToBounds (minX maxX minY maxY : ℚ) (b : PhysicsBody) :
    PhysicsBody × Bool :=
  let px : ℚ × ℚ × Bool :=
    if b.state.position.x < minX then
      (minX, b.state.velocity.x * -b.restitution, true)
    else if b.state.position.x > maxX then
      (maxX, b.state.velocity.x * -b.restitution, true)
    else (b.state.position.x, b.state.velocity.x, false)
  let py : ℚ × ℚ × Bool :=
    if b.state.position.y < minY then
      (minY, b.state.velocity.y * -b.restitution, true)
    else if b.state.position.y > maxY then
      (maxY, b.state.velocity.y * -b.restitution, true)
    else (b.state.position.y, b.state.velocity.y, false)
  ({ b with state := { b.state with
       position := ⟨px.1, py.1⟩
       velocity := ⟨px.2.1, py.2.1⟩ } },
   px.2.2 || py.2.2)

/-- `toScreenPosition()`: convert the body's physics position to screen
coordinates. -/
def toScreenPosition (SCALE CANVAS_HEIGHT : ℚ) (b : PhysicsBody) : Vec :=
  physicsToScreen SCALE CANVAS_HEIGHT b.state.position

/-- `checkHover(p, screenPos)`: hit test of the mouse (in pixels) against the
body's screen-space footprint; distance comparisons are embedded as the
equivalent comparisons of squares (`sizePx ≥ 0` in every call site). -/
def checkHover (SCALE mouseX mouseY : ℚ) (screenPos : Vec) (b : PhysicsBody) : Bool :=
  let sizePx := toPixels SCALE b.size
  match b.shape with
  | Shape.circle =>
      decide (Vec.distSq screenPos ⟨mouseX, mouseY⟩ ≤ (sizePx / 2) ^ 2)
  | Shape.rect =>
      decide (mouseX ≥ screenPos.x - sizePx / 2 ∧ mouseX ≤ screenPos.x + sizePx / 2 ∧
              mouseY ≥ screenPos.y - sizePx / 2 ∧ mouseY ≤ screenPos.y + sizePx / 2)

end PhysicsBody

/-! ## `app/(core)/physics/DragController.js` -/

/-- `DragController`: drag state (`this.state`) together with the two
configuration fields the embedded methods read (`this.config.snapBack`,
`this.config.smoothing`). `targetBody` holds the dragged body by value (a
reference in JS). -/
structure DragController where
  active : Bool
  targetBody : Option PhysicsBody
  offsetX : ℚ
  offsetY : ℚ
  initialPosition : Option Vec
  snapBack : Bool
  smoothing : ℚ
deriving DecidableEq, Repr

namespace DragController

/-- The freshly constructed controller (`new DragController()` with the
default options). -/
def init : DragController :=
  { active := false, targetBody := none, offsetX := 0, offsetY := 0,
    initialPosition := none, snapBack := false, smoothing := 0 }

/-- `isDragging()`. -/
def isDragging (dc : DragController) : Bool := dc.active

/-- `getDraggedBody()`. -/
def getDraggedBody (dc : DragController) : Option PhysicsBody := dc.targetBody

/-- `startDrag(body, mouseX, mouseY)`: activate the controller on `body`,
record the snap-back position when configured, compute the mouse offset from
the body's screen position, and zero the body's velocity (the JS code mutates
the body through the stored reference, so the stored target is the body with
zeroed velocity). Returns the controller and the mutated body. -/
def startDrag (SCALE CANVAS_HEIGHT mouseX mouseY : ℚ) (dc : DragController)
    (body : PhysicsBody) : DragController × PhysicsBody :=
  let initialPosition :=
    if dc.snapBack then some body.state.position else dc.initialPosition
  let screenPos := body.toScreenPosition SCALE CANVAS_HEIGHT
  let body1 : PhysicsBody :=
    { body with state := { body.state with velocity := Vec.zero } }
  ({ dc with
      active := true
      targetBody := some body1
      initialPosition := initialPosition
      offsetX := screenPos.x - mouseX
      offsetY := screenPos.y - mouseY },
   body1)

/-- `handlePress(p, bodies)`: iterate over the bodies looking for a hit. In
the source the entire hit test (the `customHitTest` and `checkHover` calls,
lines 36–41 of `DragController.js`) is commented out and the loop variable is
initialised to `let isHit = false;`, so no body can ever register as hit; the
branch calling `startDrag` is kept verbatim but is unreachable. Returns the
controller and the boolean result. -/
def handlePress (SCALE CANVAS_HEIGHT mouseX mouseY : ℚ) (dc : DragController) :
    List PhysicsBody → DragController × Bool
  | [] => (dc, false)
  | body :: rest =>
      let isHit := false
      if isHit then
        ((startDrag SCALE CANVAS_HEIGHT mouseX mouseY dc body).1, true)
      else
        handlePress SCALE CANVAS_HEIGHT mouseX mouseY dc rest

end DragController

/-! ## Circle-circle collision resolution of the test sketch (`p.draw`) -/

/-- The impulse-resolution step of the per-frame collision loop in the test
sketch (`test.jsx`, the body of `if (dist < minDist)` from the relative
velocity on): given the collision `normal` (in the source the normalised
vector from `body1` to `body2`; its normalisation is the only irrational
step, so the unit normal is a parameter here), skip when
`velAlongNormal < 0` (`continue`), otherwise compute the impulse scalar from
the averaged restitution and apply it with opposite signs to the two bodies
via `applyImpulse`. The separation of the overlapping positions that
precedes this in the source does not touch velocities and is omitted. -/
def resolveCollisionImpulse (normal : Vec) (body1 body2 : PhysicsBody) :
    PhysicsBody × PhysicsBody :=
  let relVel := Vec.sub body2.state.velocity body1.state.velocity
  let velAlongNormal := Vec.dot relVel normal
  if velAlongNormal < 0 then (body1, body2)
  else
    let restitution := (body1.restitution + body2.restitution) / 2
    let impulse := (-(1 + restitution) * velAlongNormal) / (1 / body1.mass + 1 / body2.mass)
    (body1.applyImpulse (Vec.mult normal (-impulse)),
     body2.applyImpulse (Vec.mult normal impulse))

/-! ## Concrete sample bodies (used by witnesses and counterexamples) -/

/-- A unit-mass circular body at the origin with a pending acceleration of
`(1, 0)` (as left by an `applyForce` call) and an empty, disabled trail. -/
def bodyA : PhysicsBody :=
  { mass := 1, size := 1, restitution := 1, shape := Shape.circle
    state :=
      { position := ⟨0, 0⟩, velocity := ⟨0, 0⟩, acceleration := ⟨1, 0⟩
        rotation := 0, angularVelocity := 0, angularAcceleration := 0 }
    isMoving := false
    trail := { enabled := false, points := [], maxLength := 100 } }

/-- A body outside the box `[0,4] × [0,10]` on both axes (x too large, y too
small), moving with velocity `(2, 3)`, restitution `1/2`. -/
def bodyB : PhysicsBody :=
  { mass := 2, size := 1, restitution := 1/2, shape := Shape.circle
    state :=
      { position := ⟨5, -1⟩, velocity := ⟨2, 3⟩, acceleration := ⟨0, 0⟩
        rotation := 0, angularVelocity := 0, angularAcceleration := 0 }
    isMoving := false
    trail := { enabled := false, points := [], maxLength := 100 } }

/-- A body with the trail enabled and one recorded point. -/
def bodyC : PhysicsBody :=
  { mass := 1, size := 1, restitution := 1, shape := Shape.circle
    state :=
      { position := ⟨3, 4⟩, velocity := ⟨1, 0⟩, acceleration := ⟨0, -10⟩
        rotation := 0, angularVelocity := 0, angularAcceleration := 0 }
    isMoving := true
    trail := { enabled := true, points := [⟨0, 0⟩], maxLength := 100 } }

/-- A resting unit-mass body. -/
def bodyD : PhysicsBody :=
  { mass := 1, size := 2, restitution := 1, shape := Shape.circle
    state :=
      { position := ⟨0, 0⟩, velocity := ⟨0, 0⟩, acceleration := ⟨0, 0⟩
        rotation := 0, angularVelocity := 0, angularAcceleration := 0 }
    isMoving := false
    trail := { enabled := false, points := [], maxLength := 100 } }

/-- A unit-mass body moving right with unit speed, one unit to the right of
`bodyD` (so the two overlap: center distance 1 < radius sum 2). -/
def bodyE : PhysicsBody :=
  { mass := 1, size := 2, restitution := 1, shape := Shape.circle
    state :=
      { position := ⟨1, 0⟩, velocity := ⟨1, 0⟩, acceleration := ⟨0, 0⟩
        rotation := 0, angularVelocity := 0, angularAcceleration := 0 }
    isMoving := true
    trail := { enabled := false, points := [], maxLength := 100 } }

/-! ## Theorems -/

/-- C2: for all position, velocity and acceleration vectors and every `dt`,
the velocity-Verlet helper `integrate(pos, vel, acc, dt)` returns the new
position `pos + vel*dt + 0.5*acc*dt^2` and the new velocity `vel + acc*dt`,
componentwise. (The source operates on copies of its arguments, so the
inputs are not modified; the embedding is accordingly a pure function.) -/
theorem integrate_velocity_verlet (pos vel acc : Vec) (dt : ℚ) :
    (integrate pos vel acc dt).1.x = pos.x + vel.x * dt + 1/2 * acc.x * dt ^ 2 ∧
    (integrate pos vel acc dt).1.y = pos.y + vel.y * dt + 1/2 * acc.y * dt ^ 2 ∧
    (integrate pos vel acc dt).2.x = vel.x + acc.x * dt ∧
    (integrate pos vel acc dt).2.y = vel.y + acc.y * dt := by
  refine ⟨?_, ?_, ?_, ?_⟩ <;> simp [integrate, Vec.add, Vec.mult] <;> ring

/-- C6: the unit and canvas-coordinate conversions are mutually inverse over
exact arithmetic, for every positive scale and any canvas height:
`toMeters (toPixels m) = m` and
`screenYToPhysicsY (physicsYToScreenY y) = y`. -/
theorem conversions_mutually_inverse (SCALE CANVAS_HEIGHT m y : ℚ)
    (hS : 0 < SCALE) :
    toMeters SCALE (toPixels SCALE m) = m ∧
    screenYToPhysicsY SCALE CANVAS_HEIGHT (physicsYToScreenY SCALE CANVAS_HEIGHT y) = y := by
  have hS0 : SCALE ≠ 0 := ne_of_gt hS
  constructor
  · rw [toMeters, toPixels]
    field_simp
  · rw [screenYToPhysicsY, physicsYToScreenY]
    field_simp

/-- Witness for C6 at `SCALE = 100`, `CANVAS_HEIGHT = 600`, `m = 3`,
`y = 2`. -/
theorem conversions_mutually_inverse_witness :
    (0 : ℚ) < 100 ∧
    (toMeters 100 (toPixels 100 3) = 3 ∧
     screenYToPhysicsY 100 600 (physicsYToScreenY 100 600 2) = 2) :=
  ⟨by norm_num, conversions_mutually_inverse 100 600 3 2 (by norm_num)⟩

/-- C7: `ForceCalculator.gravity(m, g)` with no custom direction is the
textbook weight vector `(0, -m*g)` (downward in the Y-up convention), and
`ForceCalculator.spring(x, k)` is Hooke's law `-k*x`. -/
theorem gravity_and_spring_textbook (m g x k : ℚ) :
    (ForceCalculator.gravity m g).x = 0 ∧
    (ForceCalculator.gravity m g).y = -(m * g) ∧
    ForceCalculator.spring x k = -(k * x) := by
  refine ⟨rfl, rfl, ?_⟩
  rw [ForceCalculator.spring]
  ring

/-- C8: for every body and every `dt ≤ 0`, both `step` and `stepVerlet`
return the body unchanged in all fields (position, velocity, acceleration,
rotation, angular state, `isMoving`, trail). -/
theorem step_and_stepVerlet_noop_for_nonpositive_dt (b : PhysicsBody)
    (dt : ℚ) (prev : Option Vec) (hdt : dt ≤ 0) :
    PhysicsBody.step dt b = b ∧ (PhysicsBody.stepVerlet dt prev b).1 = b := by
  constructor
  · rw [PhysicsBody.step, if_pos hdt]
  · rw [PhysicsBody.stepVerlet, if_pos hdt]

/-- Witness for C8 at `dt = 0` on a concrete body. -/
theorem step_and_stepVerlet_noop_for_nonpositive_dt_witness :
    (0 : ℚ) ≤ 0 ∧
    (PhysicsBody.step 0 bodyA = bodyA ∧
     (PhysicsBody.stepVerlet 0 none bodyA).1 = bodyA) :=
  ⟨le_refl 0, step_and_stepVerlet_noop_for_nonpositive_dt bodyA 0 none (le_refl 0)⟩

/-- C1 counterexample: `step` is not explicit Euler. On `bodyA` (velocity
`(0,0)`, acceleration `(1,0)`) with `dt = 1`, the claimed new position
`old position + old velocity * dt = (0,0)` differs from the computed one,
because the source adds the *updated* velocity to the position. -/
theorem step_position_not_old_velocity :
    ¬ ((PhysicsBody.step 1 bodyA).state.position =
        Vec.add bodyA.state.position (Vec.mult bodyA.state.velocity 1)) := by
  simp [PhysicsBody.step, bodyA, Vec.add, Vec.mult, Vec.zero,
    PhysicsBody.isMovingCheck, PhysicsBody.updateTrail, Vec.magSq, Vec.mk.injEq]
  norm_num

/-- C1 (amended): for every body and every `dt > 0`, `step` performs
*semi-implicit* (symplectic) Euler integration: the new velocity is the old
velocity plus `acceleration * dt`, the new position is the old position plus
the *new* velocity times `dt`, and the linear acceleration is reset to zero
afterwards. -/
theorem step_semi_implicit_euler (b : PhysicsBody) (dt : ℚ) (hdt : 0 < dt) :
    (PhysicsBody.step dt b).state.velocity =
      Vec.add b.state.velocity (Vec.mult b.state.acceleration dt) ∧
    (PhysicsBody.step dt b).state.position =
      Vec.add b.state.position
        (Vec.mult (Vec.add b.state.velocity (Vec.mult b.state.acceleration dt)) dt) ∧
    (PhysicsBody.step dt b).state.acceleration = Vec.zero := by
  have h : ¬ dt ≤ 0 := not_le.mpr hdt
  rw [PhysicsBody.step, if_neg h]
  dsimp only
  split <;> exact ⟨rfl, rfl, rfl⟩

/-- Witness for C1 (amended) on `bodyA` with `dt = 1`. -/
theorem step_semi_implicit_euler_witness :
    (0 : ℚ) < 1 ∧
    ((PhysicsBody.step 1 bodyA).state.velocity =
       Vec.add bodyA.state.velocity (Vec.mult bodyA.state.acceleration 1) ∧
     (PhysicsBody.step 1 bodyA).state.position =
       Vec.add bodyA.state.position
         (Vec.mult (Vec.add bodyA.state.velocity (Vec.mult bodyA.state.acceleration 1)) 1) ∧
     (PhysicsBody.step 1 bodyA).state.acceleration = Vec.zero) :=
  ⟨by norm_num, step_semi_implicit_euler bodyA 1 (by norm_num)⟩

/-- C3: whenever the circle-circle impulse branch of the test sketch fires
(both masses positive and the relative velocity along the normal does not
trigger the `continue`), the momentum changes of the two bodies cancel
exactly (the applied impulses are equal in magnitude and opposite in
direction along the normal), so the total linear momentum
`m1*v1 + m2*v2` is unchanged. -/
theorem collision_impulse_conserves_momentum (normal : Vec)
    (body1 body2 : PhysicsBody)
    (hm1 : 0 < body1.mass) (hm2 : 0 < body2.mass)
    (hfire : 0 ≤ Vec.dot (Vec.sub body2.state.velocity body1.state.velocity) normal) :
    Vec.add
        (Vec.mult (Vec.sub (resolveCollisionImpulse normal body1 body2).1.state.velocity
            body1.state.velocity) body1.mass)
        (Vec.mult (Vec.sub (resolveCollisionImpulse normal body1 body2).2.state.velocity
            body2.state.velocity) body2.mass) = Vec.zero ∧
    Vec.add
        (Vec.mult (resolveCollisionImpulse normal body1 body2).1.state.velocity body1.mass)
        (Vec.mult (resolveCollisionImpulse normal body1 body2).2.state.velocity body2.mass) =
      Vec.add (Vec.mult body1.state.velocity body1.mass)
        (Vec.mult body2.state.velocity body2.mass) := by
  have hnlt : ¬ Vec.dot (Vec.sub body2.state.velocity body1.state.velocity) normal < 0 :=
    not_lt.mpr hfire
  have hm1' : body1.mass ≠ 0 := ne_of_gt hm1
  have hm2' : body2.mass ≠ 0 := ne_of_gt hm2
  rw [resolveCollisionImpulse, if_neg hnlt]
  constructor <;>
  · simp only [PhysicsBody.applyImpulse, Vec.add, Vec.sub, Vec.mult, Vec.div, Vec.zero,
      Vec.mk.injEq]
    constructor <;> field_simp <;> ring

/-- Witness for C3: `bodyD` at rest and `bodyE` moving into it along the
normal `(1, 0)`. -/
theorem collision_impulse_conserves_momentum_witness :
    (0 : ℚ) < bodyD.mass ∧ (0 : ℚ) < bodyE.mass ∧
    0 ≤ Vec.dot (Vec.sub bodyE.state.velocity bodyD.state.velocity) ⟨1, 0⟩ ∧
    (Vec.add
        (Vec.mult (Vec.sub (resolveCollisionImpulse ⟨1, 0⟩ bodyD bodyE).1.state.velocity
            bodyD.state.velocity) bodyD.mass)
        (Vec.mult (Vec.sub (resolveCollisionImpulse ⟨1, 0⟩ bodyD bodyE).2.state.velocity
            bodyE.state.velocity) bodyE.mass) = Vec.zero ∧
     Vec.add
        (Vec.mult (resolveCollisionImpulse ⟨1, 0⟩ bodyD bodyE).1.state.velocity bodyD.mass)
        (Vec.mult (resolveCollisionImpulse ⟨1, 0⟩ bodyD bodyE).2.state.velocity bodyE.mass) =
      Vec.add (Vec.mult bodyD.state.velocity bodyD.mass)
        (Vec.mult bodyE.state.velocity bodyE.mass)) :=
  ⟨by norm_num [bodyD], by norm_num [bodyE],
   by norm_num [bodyD, bodyE, Vec.dot, Vec.sub],
   collision_impulse_conserves_momentum ⟨1, 0⟩ bodyD bodyE
     (by norm_num [bodyD]) (by norm_num [bodyE])
     (by norm_num [bodyD, bodyE, Vec.dot, Vec.sub])⟩

/-- C9: with `minX ≤ maxX` and `minY ≤ maxY`, after `constrainToBounds` the
position lies inside the box, the returned flag is `true` exactly when some
coordinate was clamped (was strictly outside its interval), and each clamped
axis has its velocity component multiplied by `-restitution`. -/
theorem constrainToBounds_spec (b : PhysicsBody) (minX maxX minY maxY : ℚ)
    (hx : minX ≤ maxX) (hy : minY ≤ maxY) :
    (minX ≤ (PhysicsBody.constrainToBounds minX maxX minY maxY b).1.state.position.x ∧
     (PhysicsBody.constrainToBounds minX maxX minY maxY b).1.state.position.x ≤ maxX ∧
     minY ≤ (PhysicsBody.constrainToBounds minX maxX minY maxY b).1.state.position.y ∧
     (PhysicsBody.constrainToBounds minX maxX minY maxY b).1.state.position.y ≤ maxY) ∧
    ((PhysicsBody.constrainToBounds minX maxX minY maxY b).2 = true ↔
      (b.state.position.x < minX ∨ b.state.position.x > maxX ∨
       b.state.position.y < minY ∨ b.state.position.y > maxY)) ∧
    ((b.state.position.x < minX ∨ b.state.position.x > maxX) →
      (PhysicsBody.constrainToBounds minX maxX minY maxY b).1.state.velocity.x =
        b.state.velocity.x * -b.restitution) ∧
    (¬(b.state.position.x < minX ∨ b.state.position.x > maxX) →
      (PhysicsBody.constrainToBounds minX maxX minY maxY b).1.state.velocity.x =
        b.state.velocity.x) ∧
    ((b.state.position.y < minY ∨ b.state.position.y > maxY) →
      (PhysicsBody.constrainToBounds minX maxX minY maxY b).1.state.velocity.y =
        b.state.velocity.y * -b.restitution) ∧
    (¬(b.state.position.y < minY ∨ b.state.position.y > maxY) →
      (PhysicsBody.constrainToBounds minX maxX minY maxY b).1.state.velocity.y =
        b.state.velocity.y) := by
  rw [PhysicsBody.constrainToBounds]
  split_ifs with h1 h2 h3 h2 h3 h2 h3 <;>
    refine ⟨⟨?_, ?_, ?_, ?_⟩, ?_, ?_, ?_, ?_, ?_⟩ <;>
    simp_all

/-- Witness for C9: `bodyB` (position `(5, -1)`, outside `[0,4] × [0,10]` on
both axes). -/
theorem constrainToBounds_spec_witness :
    (0 : ℚ) ≤ 4 ∧ (0 : ℚ) ≤ 10 ∧
    ((0 ≤ (PhysicsBody.constrainToBounds 0 4 0 10 bodyB).1.state.position.x ∧
      (PhysicsBody.constrainToBounds 0 4 0 10 bodyB).1.state.position.x ≤ 4 ∧
      0 ≤ (PhysicsBody.constrainToBounds 0 4 0 10 bodyB).1.state.position.y ∧
      (PhysicsBody.constrainToBounds 0 4 0 10 bodyB).1.state.position.y ≤ 10) ∧
     ((PhysicsBody.constrainToBounds 0 4 0 10 bodyB).2 = true ↔
       (bodyB.state.position.x < 0 ∨ bodyB.state.position.x > 4 ∨
        bodyB.state.position.y < 0 ∨ bodyB.state.position.y > 10)) ∧
     ((bodyB.state.position.x < 0 ∨ bodyB.state.position.x > 4) →
       (PhysicsBody.constrainToBounds 0 4 0 10 bodyB).1.state.velocity.x =
         bodyB.state.velocity.x * -bodyB.restitution) ∧
     (¬(bodyB.state.position.x < 0 ∨ bodyB.state.position.x > 4) →
       (PhysicsBody.constrainToBounds 0 4 0 10 bodyB).1.state.velocity.x =
         bodyB.state.velocity.x) ∧
     ((bodyB.state.position.y < 0 ∨ bodyB.state.position.y > 10) →
       (PhysicsBody.constrainToBounds 0 4 0 10 bodyB).1.state.velocity.y =
         bodyB.state.velocity.y * -bodyB.restitution) ∧
     (¬(bodyB.state.position.y < 0 ∨ bodyB.state.position.y > 10) →
       (PhysicsBody.constrainToBounds 0 4 0 10 bodyB).1.state.velocity.y =
         bodyB.state.velocity.y)) :=
  ⟨by norm_num, by norm_num,
   constrainToBounds_spec bodyB 0 4 0 10 (by norm_num) (by norm_num)⟩

/-- Helper: `updateTrail` keeps the point count within `maxLength` when it
was within before. -/
theorem updateTrail_length_le (b : PhysicsBody)
    (h : b.trail.points.length ≤ b.trail.maxLength) :
    (PhysicsBody.updateTrail b).points.length ≤ b.trail.maxLength := by
  rw [PhysicsBody.updateTrail]
  dsimp only
  split
  · next hgt =>
    simp only [List.length_tail, List.length_append, List.length_cons,
      List.length_nil] at hgt ⊢
    omega
  · next hle =>
    simp only [List.length_append, List.length_cons, List.length_nil] at hle ⊢
    omega

/-- Helper: `updateTrail` does not change `maxLength`. -/
theorem updateTrail_maxLength (b : PhysicsBody) :
    (PhysicsBody.updateTrail b).maxLength = b.trail.maxLength := by
  rw [PhysicsBody.updateTrail]
  dsimp only
  split <;> rfl

/-- C10: the trail is bounded: if `points.length ≤ maxLength` holds before
`updateTrail` then it holds after, and `step` (which calls `updateTrail`
when the trail is enabled) preserves the same invariant for any `dt`. -/
theorem trail_length_invariant (b : PhysicsBody) (dt : ℚ)
    (h : b.trail.points.length ≤ b.trail.maxLength) :
    (PhysicsBody.updateTrail b).points.length ≤ b.trail.maxLength ∧
    (PhysicsBody.step dt b).trail.points.length ≤
      (PhysicsBody.step dt b).trail.maxLength := by
  refine ⟨updateTrail_length_le b h, ?_⟩
  rw [PhysicsBody.step]
  split
  · exact h
  · dsimp only
    split
    · dsimp only
      rw [updateTrail_maxLength]
      exact updateTrail_length_le _ h
    · exact h

/-- Witness for C10 on `bodyC` (trail enabled, one stored point, cap 100)
with `dt = 1`. -/
theorem trail_length_invariant_witness :
    bodyC.trail.points.length ≤ bodyC.trail.maxLength ∧
    ((PhysicsBody.updateTrail bodyC).points.length ≤ bodyC.trail.maxLength ∧
     (PhysicsBody.step 1 bodyC).trail.points.length ≤
       (PhysicsBody.step 1 bodyC).trail.maxLength) :=
  ⟨by simp [bodyC], trail_length_invariant bodyC 1 (by simp [bodyC])⟩

/-- C5 (failing input): a circular body at the origin with the mouse pressed
exactly on its screen position (`SCALE = 100`, `CANVAS_HEIGHT = 600`, mouse
at `(0, 600)`). The body's own hit test `checkHover` reports a hit, yet
`handlePress` returns `false` and leaves the controller inactive, because
the hit test inside `handlePress` (DragController.js lines 36–41) is
commented out and `isHit` is hard-coded to `false`. -/
theorem handlePress_never_starts_drag :
    PhysicsBody.checkHover 100 0 600 (bodyA.toScreenPosition 100 600) bodyA = true ∧
    DragController.handlePress 100 600 0 600 DragController.init [bodyA] =
      (DragController.init, false) ∧
    (DragController.handlePress 100 600 0 600 DragController.init [bodyA]).1.isDragging
      = false := by
  refine ⟨?_, rfl, rfl⟩
  simp [PhysicsBody.checkHover, bodyA, PhysicsBody.toScreenPosition, physicsToScreen,
    toPixels, physicsYToScreenY, Vec.distSq, Vec.magSq, Vec.sub]
  norm_num

/-- Helper: the gravity magnitude read by `collideBoundary` is
nonnegative. -/
theorem gravityOf_nonneg (acc : Option Vec) : 0 ≤ gravityOf acc := by
  cases acc with
  | none => simp [gravityOf]
  | some a =>
    simp only [gravityOf]
    exact abs_nonneg _

/-- C4 counterexample. First input: a ball of radius `1` at `x = 1/2` in a
box of width `1` overlaps both vertical walls; the left-wall branch takes
priority, so with incoming velocity `(1, 0)` and restitution `1` the
returned horizontal velocity is `1 > 0`, refuting the claim's right-wall
clause (`≤ 0`). Second input: a ball of radius `1` at `y = 1/2` in a box of
height `1` overlaps both floor and ceiling with zero vertical speed
(`≤` the lift work); the ceiling branch takes priority, so the ball is not
placed at rest at `y = radius`, refuting the claim's floor clause. -/
theorem collideBoundary_priority_clauses_false :
    (((1 : ℚ)/2 + 1 > 1) ∧
     ¬ ((collideBoundary id ⟨1/2, 5⟩ ⟨1, 0⟩ 1 10 1 1 none).2.x ≤ 0)) ∧
    (((1 : ℚ)/2 - 1 < 0) ∧
     (0 : ℚ) ^ 2 ≤ 2 * gravityOf none * (2 * (1 - 1/2)) ∧
     ¬ ((collideBoundary id ⟨5, 1/2⟩ ⟨0, 0⟩ 10 1 1 1 none).1.y = 1)) := by
  refine ⟨⟨by norm_num, ?_⟩, by norm_num, by norm_num [gravityOf], ?_⟩
  · norm_num [collideBoundary, gravityOf]
  · norm_num [collideBoundary, gravityOf]

/-- C4 (amended): `collideBoundary` with restitution in `[0, 1]` reflects the
velocity back into the box, subject to the source's branch priorities: on a
left-wall overlap the returned horizontal velocity is `≥ 0`; on a right-wall
overlap *that is not also a left-wall overlap* it is `≤ 0`; on a ceiling
overlap the returned vertical velocity is `≤ 0`; and on a floor overlap that
is not also a ceiling overlap, where the squared vertical speed does not
exceed the lift work `2*g*(2*penetration)`, the ball is placed exactly at
rest on the floor (`y = radius`, vertical velocity `0`). -/
theorem collideBoundary_reflects (sq : ℚ → ℚ) (pos vel : Vec)
    (w h radius e : ℚ) (acc : Option Vec) (he0 : 0 ≤ e) (_he1 : e ≤ 1) :
    (pos.x - radius < 0 →
      0 ≤ (collideBoundary sq pos vel w h radius e acc).2.x) ∧
    (pos.x + radius > w → ¬(pos.x - radius < 0) →
      (collideBoundary sq pos vel w h radius e acc).2.x ≤ 0) ∧
    (pos.y + radius > h →
      (collideBoundary sq pos vel w h radius e acc).2.y ≤ 0) ∧
    (pos.y - radius < 0 → ¬(pos.y + radius > h) →
      vel.y ^ 2 ≤ 2 * gravityOf acc * (2 * (radius - pos.y)) →
      (collideBoundary sq pos vel w h radius e acc).1.y = radius ∧
      (collideBoundary sq pos vel w h radius e acc).2.y = 0) := by
  simp only [collideBoundary]
  refine ⟨?_, ?_, ?_, ?_⟩
  · intro hL
    rw [if_pos hL]
    dsimp only
    exact mul_nonneg (abs_nonneg _) he0
  · intro hR hnL
    rw [if_neg hnL, if_pos hR]
    dsimp only
    have h0 : 0 ≤ |vel.x| * e := mul_nonneg (abs_nonneg _) he0
    linarith
  · intro hC
    rw [if_pos hC]
    dsimp only
    have h0 : 0 ≤ |vel.y| * e := mul_nonneg (abs_nonneg _) he0
    linarith
  · intro hF hnC hwork
    rw [if_neg hnC, if_pos hF]
    have hpen : (0 : ℚ) - (pos.y - radius) = radius - pos.y := by ring
    have hnb : ¬ (vel.y ^ 2 >
        if gravityOf acc > 0 then
          2 * gravityOf acc * (2 * (0 - (pos.y - radius))) else 0) := by
      by_cases hg : gravityOf acc > 0
      · rw [if_pos hg, hpen]
        exact not_lt.mpr hwork
      · rw [if_neg hg]
        have hg0 : gravityOf acc = 0 :=
          le_antisymm (not_lt.mp hg) (gravityOf_nonneg acc)
        rw [hg0] at hwork
        simpa using not_lt.mpr (by linarith : vel.y ^ 2 ≤ 0)
    rw [if_neg hnb]
    exact ⟨rfl, rfl⟩

/-- Witness for C4 (amended): a ball resting-range hit on the floor
(`pos = (5, 1/2)`, `vel = (0, -3)`, box `10 × 10`, radius `1`, restitution
`1/2`, gravity `10`): the squared vertical speed `9` does not exceed the
lift work `20`, so the amended floor clause applies. -/
theorem collideBoundary_reflects_witness :
    (0 : ℚ) ≤ 1/2 ∧ (1/2 : ℚ) ≤ 1 ∧
    (((5 : ℚ) - 1 < 0 →
       0 ≤ (collideBoundary id ⟨5, 1/2⟩ ⟨0, -3⟩ 10 10 1 (1/2) (some ⟨0, -10⟩)).2.x) ∧
     ((5 : ℚ) + 1 > 10 → ¬((5 : ℚ) - 1 < 0) →
       (collideBoundary id ⟨5, 1/2⟩ ⟨0, -3⟩ 10 10 1 (1/2) (some ⟨0, -10⟩)).2.x ≤ 0) ∧
     ((1 : ℚ)/2 + 1 > 10 →
       (collideBoundary id ⟨5, 1/2⟩ ⟨0, -3⟩ 10 10 1 (1/2) (some ⟨0, -10⟩)).2.y ≤ 0) ∧
     ((1 : ℚ)/2 - 1 < 0 → ¬((1 : ℚ)/2 + 1 > 10) →
       (-3 : ℚ) ^ 2 ≤ 2 * gravityOf (some ⟨0, -10⟩) * (2 * (1 - 1/2)) →
       (collideBoundary id ⟨5, 1/2⟩ ⟨0, -3⟩ 10 10 1 (1/2) (some ⟨0, -10⟩)).1.y = 1 ∧
       (collideBoundary id ⟨5, 1/2⟩ ⟨0, -3⟩ 10 10 1 (1/2) (some ⟨0, -10⟩)).2.y = 0)) :=
  ⟨by norm_num, by norm_num,
   collideBoundary_reflects id ⟨5, 1/2⟩ ⟨0, -3⟩ 10 10 1 (1/2) (some ⟨0, -10⟩)
     (by norm_num) (by norm_num)⟩
